import Mathlib

/-!
Verification of the client-side trade-offer and notification state model of
the card-vault marketplace client.

The development shallowly embeds the state-bearing parts of the client:

- the notification store (src/context/NotificationContext.jsx): unread count,
  notification list, optimistic read mutations, the polling effect lifecycle;
- the session store (src/context/AuthContext.jsx): login, logout;
- the API gateway 401 interceptor (src/services/api.js);
- the offer detail view (src/pages/OfferDetails.jsx): role resolution,
  role- and status-conditional actions, the message thread handlers and the
  mark-thread-read effect.

JavaScript numbers that the code manipulates with Math.max are embedded as
Int; object identities (React reference equality on effect dependencies)
are embedded as Nat tags; async handlers are split at their await points
into the synchronous prefix and the continuations for the success and the
failure outcome, which is exactly how the event loop schedules them.
-/

/-- A notification as the client stores it: the code reads only the id and
the read flag (field _id in the source); the object spread keeps any other
fields unchanged, which the embedding represents by the message payload. -/
structure NotifItem where
  id : Nat
  read : Bool
  payload : Nat
deriving DecidableEq, Repr

/-- Local state of the notification store: unreadCount and notifications,
from the useState hooks of NotificationProvider. The count is an Int
because the source computes with JavaScript numbers. -/
structure NotifState where
  unreadCount : Int
  notifications : List NotifItem
deriving DecidableEq, Repr

/-- Synchronous prefix of markAsRead (NotificationContext.jsx lines 67-75):
the optimistic update maps the matching notification to read = true and
sets the count to Math.max of 0 and count minus 1, before the network call
is awaited. -/
def markAsReadOptimistic (s : NotifState) (nid : Nat) : NotifState :=
  { notifications :=
      s.notifications.map fun n => if n.id = nid then { n with read := true } else n,
    unreadCount := max 0 (s.unreadCount - 1) }

/-- Failure continuation of markAsRead (the catch block, lines 76-79): it
only logs, so the state reached by the optimistic prefix is kept as is. -/
def markAsReadOnError (s : NotifState) (nid : Nat) : NotifState :=
  markAsReadOptimistic s nid

/-- Synchronous prefix of markAllAsRead (lines 83-89): every notification
is mapped to read = true and the count is set to 0 before the network call;
the catch block again keeps the optimistic state. -/
def markAllAsReadLocal (s : NotifState) : NotifState :=
  { notifications := s.notifications.map fun n => { n with read := true },
    unreadCount := 0 }

/-- Outcome of one fetchUnreadCount invocation (lines 36-48). The guard
reads isAuthenticated at call time: when false the count is set to 0 and
no request is issued; otherwise the awaited response either carries a
server count, which is stored, or an error, which only logs. -/
def fetchUnreadCountApply (isAuth : Bool) (s : NotifState) (resp : Option Int) : NotifState :=
  if isAuth = false then { s with unreadCount := 0 }
  else
    match resp with
    | some c => { s with unreadCount := c }
    | none => s

/-- Continuation of fetchUnreadCount after its await, as resumed when the
response arrives late, after the poller teardown. The source applies
setUnreadCount unconditionally: the tornDown argument records whether the
teardown already ran, and the handler never consults it, which is the
faithful embedding of the absence of a liveness flag in lines 42-47. -/
def fetchUnreadCountLate (_tornDown : Bool) (s : NotifState) (serverCount : Int) : NotifState :=
  { s with unreadCount := serverCount }

/-- Notification state immediately after poller teardown: the effect branch
for an unauthenticated user (lines 97-101) resets the count to 0 and the
list to empty. -/
def notifTeardownState : NotifState :=
  { unreadCount := 0, notifications := [] }

/-- State of the polling effect of NotificationProvider (lines 96-111),
embedded with React effect semantics. timers lists the interval ids that
are currently scheduled; cleanupTimer is the interval id captured by the
cleanup closure returned by the last effect run, if that run scheduled
one; nextId allocates fresh interval ids. The effect dependency list is
isAuthenticated together with the useCallback value fetchUnreadCount,
whose own dependency list is exactly isAuthenticated, so the effect
re-runs exactly when the authentication flag flips. -/
structure PollerState where
  auth : Bool
  timers : List Nat
  cleanupTimer : Option Nat
  nextId : Nat
deriving DecidableEq, Repr

/-- clearInterval on the id held by a cleanup closure, if any. -/
def clearIntervalStep (timers : List Nat) : Option Nat → List Nat
  | some i => timers.filter fun t => t ≠ i
  | none => timers

/-- One run of the polling effect body, preceded, as React guarantees, by
the cleanup of the previous run. The unauthenticated branch resets counts
and returns without scheduling and without a cleanup function; the
authenticated branch fetches once, schedules one interval, and returns a
cleanup that clears exactly that interval. -/
def runPollingEffect (s : PollerState) : PollerState :=
  let remaining := clearIntervalStep s.timers s.cleanupTimer
  if s.auth then
    { auth := s.auth, timers := s.nextId :: remaining,
      cleanupTimer := some s.nextId, nextId := s.nextId + 1 }
  else
    { auth := s.auth, timers := remaining, cleanupTimer := none, nextId := s.nextId }

/-- An authentication flip: the dependency changes, so the effect re-runs
on the new flag value. -/
def setAuth (s : PollerState) (b : Bool) : PollerState :=
  runPollingEffect { s with auth := b }

/-- Unmount of the provider: React runs the pending cleanup and no effect
body thereafter. -/
def unmountPoller (s : PollerState) : PollerState :=
  { s with timers := clearIntervalStep s.timers s.cleanupTimer, cleanupTimer := none }

/-- Mount of the provider with initial authentication flag a: no timer
exists yet and the effect runs once. -/
def mountPoller (a : Bool) : PollerState :=
  runPollingEffect { auth := a, timers := [], cleanupTimer := none, nextId := 0 }

/-- The poller after mounting with flag a and then observing the given
sequence of authentication flips. -/
def runPoller (a : Bool) (evs : List Bool) : PollerState :=
  evs.foldl setAuth (mountPoller a)

/-- Lifecycle invariant of the poller: while authenticated exactly one
interval is scheduled and the cleanup closure holds exactly that id; while
unauthenticated nothing is scheduled and no cleanup is pending. -/
def PollerInv (s : PollerState) : Prop :=
  (s.auth = true → ∃ i, s.timers = [i] ∧ s.cleanupTimer = some i) ∧
  (s.auth = false → s.timers = [] ∧ s.cleanupTimer = none)

/-- Session store state (AuthContext.jsx): the two localStorage entries and
the in-memory user of the useState hook. Tokens and users are embedded as
Nat tags. -/
structure SessionStore where
  storedToken : Option Nat
  storedUser : Option Nat
  user : Option Nat
deriving DecidableEq, Repr

/-- Success continuation of login (AuthContext.jsx lines 86-98): the token
and the user from the response are written to localStorage and the user
state is set. -/
def loginSuccess (_s : SessionStore) (token : Nat) (u : Nat) : SessionStore :=
  { storedToken := some token, storedUser := some u, user := some u }

/-- logout (AuthContext.jsx lines 109-124): the server call is awaited
inside a try whose catch only logs, so whatever the call returns, both
localStorage entries are removed and the user state is cleared. The
serverOk argument records the outcome of the best-effort server call and
the continuation does not depend on it. -/
def logoutRun (_s : SessionStore) (_serverOk : Bool) : SessionStore :=
  { storedToken := none, storedUser := none, user := none }

/-- Browser location, as the interceptor compares it: the login entry point
window.location.pathname equal to /login, or anywhere else. -/
inductive Loc
  | login
  | other
deriving DecidableEq, Repr

/-- Whole-page state seen by the gateway: the two localStorage entries, the
in-memory user of the mounted AuthProvider, and the location. -/
structure AppState where
  storedToken : Option Nat
  storedUser : Option Nat
  sessionUser : Option Nat
  loc : Loc
deriving DecidableEq, Repr

/-- The 401 branch of the response interceptor (api.js lines 54-71): it
removes the token and the user from localStorage, then assigns
window.location.href to /login unless the pathname already is /login. The
assignment performs a full page navigation, after which the fresh
AuthProvider mounts with user null and its checkAuth finds no token, so
the in-memory user of the new page is none; when the location already is
the login entry point no navigation happens and the mounted provider, and
with it the in-memory user, survives unchanged. -/
def handle401 (s : AppState) : AppState :=
  let cleared : AppState := { s with storedToken := none, storedUser := none }
  if cleared.loc ≠ Loc.login then
    { storedToken := none, storedUser := none, sessionUser := none, loc := Loc.login }
  else cleared

/-- The teardown that logout performs on the same page state: localStorage
cleared and the in-memory user set to null (AuthContext.jsx lines 118-123). -/
def logoutTeardown (s : AppState) : AppState :=
  { s with storedToken := none, storedUser := none, sessionUser := none }

/-- Offer status, the four string values rendered by the view. -/
inductive OfferStatus
  | pending
  | accepted
  | declined
  | cancelled
deriving DecidableEq, Repr

/-- The three transition actions a control in the view can initiate. -/
inductive OfferAction
  | accept
  | decline
  | cancel
deriving DecidableEq, Repr

/-- The showResponseForm useState of OfferDetails: null, or the string
accept or decline chosen by the seller. -/
inductive ResponseForm
  | accept
  | decline
deriving DecidableEq, Repr

/-- Role resolution of OfferDetails.jsx lines 47-48: the viewer is the
buyer, or the seller, exactly when a user is logged in and the party id of
the offer equals the user id. -/
def isRoleOf (viewer : Option Nat) (partyId : Nat) : Bool :=
  match viewer with
  | none => false
  | some uid => partyId = uid

/-- The offer fields the actions section reads. -/
structure OfferView where
  buyerId : Nat
  sellerId : Nat
  status : OfferStatus
deriving DecidableEq, Repr

/-- Transition actions with an enabled control in the rendered actions
section (OfferDetails.jsx lines 269-330). The whole section renders only
when the status is pending. Inside it, the accept and decline buttons
render when the viewer is the seller and no response form is open, the
cancel button renders when the viewer is the buyer, and an open response
form renders a confirm button for its chosen action, disabled while a
response is in flight. -/
def enabledActions (status : OfferStatus) (isBuyer isSeller : Bool)
    (showResponseForm : Option ResponseForm) (responding : Bool) : List OfferAction :=
  if status = OfferStatus.pending then
    (if isSeller && showResponseForm.isNone then
       [OfferAction.accept, OfferAction.decline] else [])
    ++ (if isBuyer then [OfferAction.cancel] else [])
    ++ (match showResponseForm with
        | some ResponseForm.accept => if responding then [] else [OfferAction.accept]
        | some ResponseForm.decline => if responding then [] else [OfferAction.decline]
        | none => [])
  else []

/-- A message of the thread as the view stores it; the id is the
server-assigned identity (_id in the source). -/
structure ThreadMsg where
  id : Nat
  senderId : Nat
  content : String
deriving DecidableEq, Repr

/-- The message-thread state of OfferDetails: the messages list, the input
field, the sending flag, and whether the error toast for a failed send has
been shown. -/
structure SendState where
  messages : List ThreadMsg
  newMessage : String
  sendingMessage : Bool
  errorToast : Bool
deriving DecidableEq, Repr

/-- The JavaScript string trim builtin that the send handler calls,
modelled on the character list: whitespace is dropped from both ends. -/
def jsTrim (s : String) : String :=
  String.mk (((s.data.dropWhile Char.isWhitespace).reverse.dropWhile
    Char.isWhitespace).reverse)

/-- Synchronous prefix of handleSendMessage (OfferDetails.jsx lines
92-101), up to the await of messageAPI.send: an all-whitespace input
returns at once; otherwise only the sending flag is set. Nothing is
appended to the messages list before the call resolves. -/
def handleSendMessageStart (s : SendState) : SendState :=
  if jsTrim s.newMessage = "" then s
  else { s with sendingMessage := true }

/-- Success continuation of handleSendMessage (lines 102-104 and 108): the
message returned by the server is appended, the input is cleared, and the
sending flag is dropped. -/
def handleSendMessageSuccess (s : SendState) (serverMsg : ThreadMsg) : SendState :=
  { s with
    messages := s.messages ++ [serverMsg],
    newMessage := "",
    sendingMessage := false }

/-- Failure continuation of handleSendMessage (lines 105-108): the catch
shows the error toast and the sending flag is dropped; the messages list
is untouched. -/
def handleSendMessageFailure (s : SendState) : SendState :=
  { s with errorToast := true, sendingMessage := false }

/-- Events observed by the mounted offer detail view that change its state:
the offer state being set to a freshly fetched or freshly returned offer
object (carrying a new reference identity, embedded as a Nat tag), or the
messages state changing (a send appending, or the message fetch landing). -/
inductive ThreadEvent
  | offerSet (ref : Nat)
  | messagesChanged
deriving DecidableEq, Repr

/-- State of the fetchMessages effect of OfferDetails.jsx lines 69-84: the
current offer state (none before the first fetch resolves), the offer
reference the effect last ran with (its dependency snapshot; the id route
parameter is fixed while the view is mounted), and how many times
messageAPI.markRead has been called. -/
structure ThreadViewState where
  offer : Option Nat
  lastOfferDep : Option Nat
  markReadCalls : Nat
deriving DecidableEq, Repr

/-- One run opportunity of the fetchMessages effect: React re-runs the
body when the offer dependency changed since the last run; the body
returns at once when the offer is still null and otherwise fetches the
messages and issues one markRead call. -/
def runMessagesEffect (s : ThreadViewState) : ThreadViewState :=
  if s.offer = s.lastOfferDep then s
  else
    { offer := s.offer,
      lastOfferDep := s.offer,
      markReadCalls := s.markReadCalls + (if s.offer.isSome then 1 else 0) }

/-- View-entry state of the thread: at mount the offer state is null, the
effect has run once (its body returned at the null guard without calling
markRead), and no markRead call has been made. -/
def threadInit : ThreadViewState :=
  { offer := none, lastOfferDep := none, markReadCalls := 0 }

/-- Applying one event to the view: setting the offer state changes the
effect dependency, so the effect gets a run opportunity at the next
render; a change of the messages state leaves the dependency list
untouched and the effect does not re-run. -/
def threadStep (s : ThreadViewState) : ThreadEvent → ThreadViewState
  | ThreadEvent.offerSet r => runMessagesEffect { s with offer := some r }
  | ThreadEvent.messagesChanged => s

/-- The thread view after entry and the given event sequence. -/
def runThread (evs : List ThreadEvent) : ThreadViewState :=
  evs.foldl threadStep threadInit

/-- Checks that every offerSet event in the trace carries a reference
distinct from the offer reference current at that point, which is how the
source behaves: setOffer always stores a freshly parsed response object,
never the object already in state. -/
def freshTrace (cur : Option Nat) : List ThreadEvent → Bool
  | [] => true
  | ThreadEvent.offerSet r :: rest =>
      decide (some r ≠ cur) && freshTrace (some r) rest
  | ThreadEvent.messagesChanged :: rest => freshTrace cur rest

/-- Number of offerSet events in a trace. -/
def countOfferLoads : List ThreadEvent → Nat
  | [] => 0
  | ThreadEvent.offerSet _ :: rest => countOfferLoads rest + 1
  | ThreadEvent.messagesChanged :: rest => countOfferLoads rest

/-- C4: every markAsRead invocation applies its local mutation in the
synchronous prefix, before any network response is observed: the
notification carrying the given id has read set to true, the unread count
becomes the floored decrement, in particular a genuine decrement whenever
the count was positive, and the failure continuation keeps the optimistic
state unchanged, so a failed call is not rolled back. -/
theorem c4_markAsRead_optimistic (s : NotifState) (nid : Nat) :
    (∀ n ∈ (markAsReadOptimistic s nid).notifications, n.id = nid → n.read = true) ∧
    (markAsReadOptimistic s nid).unreadCount = max 0 (s.unreadCount - 1) ∧
    (0 < s.unreadCount →
      (markAsReadOptimistic s nid).unreadCount = s.unreadCount - 1) ∧
    markAsReadOnError s nid = markAsReadOptimistic s nid := by
  refine ⟨?_, rfl, ?_, rfl⟩
  · intro n hn hid
    rw [markAsReadOptimistic, List.mem_map] at hn
    obtain ⟨m, _, rfl⟩ := hn
    by_cases h : m.id = nid
    · rw [if_pos h]
    · rw [if_neg h] at hid ⊢
      exact absurd hid h
  · intro h
    show max 0 (s.unreadCount - 1) = s.unreadCount - 1
    exact max_eq_right (by omega)

/-- Witness for c4_markAsRead_optimistic at a concrete store holding two
unread notifications and count 3. -/
theorem c4_markAsRead_optimistic_witness :
    (markAsReadOptimistic
        { unreadCount := 3, notifications := [⟨1, false, 0⟩, ⟨2, false, 0⟩] } 1).unreadCount =
      ({ unreadCount := 3, notifications := [⟨1, false, 0⟩, ⟨2, false, 0⟩] } : NotifState).unreadCount - 1 :=
  (c4_markAsRead_optimistic
      { unreadCount := 3, notifications := [⟨1, false, 0⟩, ⟨2, false, 0⟩] } 1).2.2.1
    (by decide)

/-- C5: markAllAsRead sets the local unread count to 0, so two successive
calls from any starting state leave it 0 after each call and it never
becomes negative. -/
theorem c5_markAllAsRead_idempotent (s : NotifState) :
    (markAllAsReadLocal (markAllAsReadLocal s)).unreadCount = 0 ∧
    (markAllAsReadLocal s).unreadCount = 0 ∧
    0 ≤ (markAllAsReadLocal (markAllAsReadLocal s)).unreadCount :=
  ⟨rfl, rfl, le_refl 0⟩

/-- C10: every operation of the notification store preserves a nonnegative
unread count: markAsRead floors its decrement at zero for any id,
markAllAsRead sets the count to exactly zero, and fetchUnreadCount stores
the server-reported count, or zero when unauthenticated, or keeps the
count on error. -/
theorem c10_unreadCount_nonneg (s : NotifState) (nid : Nat) (isAuth : Bool) (c : Int)
    (hs : 0 ≤ s.unreadCount) (hc : 0 ≤ c) :
    0 ≤ (markAsReadOptimistic s nid).unreadCount ∧
    (markAllAsReadLocal s).unreadCount = 0 ∧
    0 ≤ (fetchUnreadCountApply isAuth s (some c)).unreadCount ∧
    0 ≤ (fetchUnreadCountApply isAuth s none).unreadCount := by
  refine ⟨le_max_left 0 _, rfl, ?_, ?_⟩
  · cases isAuth
    · exact le_refl 0
    · exact hc
  · cases isAuth
    · exact le_refl 0
    · exact hs

/-- Witness for c10_unreadCount_nonneg at a concrete store with count 5
and server count 2. -/
theorem c10_unreadCount_nonneg_witness :
    0 ≤ (markAsReadOptimistic { unreadCount := 5, notifications := [] } 9).unreadCount ∧
    0 ≤ (fetchUnreadCountApply true { unreadCount := 5, notifications := [] } (some 2)).unreadCount :=
  ⟨(c10_unreadCount_nonneg { unreadCount := 5, notifications := [] } 9 true 2
      (by decide) (by decide)).1,
   (c10_unreadCount_nonneg { unreadCount := 5, notifications := [] } 9 true 2
      (by decide) (by decide)).2.2.1⟩

/-- C3 evidence: the resumed continuation of fetchUnreadCount applies the
server count without consulting any liveness flag, so a response arriving
after the poller teardown, which had reset the count to 0, mutates the
state: the count becomes 3 and the state differs from the teardown state. -/
theorem c3_late_response_mutates :
    (fetchUnreadCountLate true notifTeardownState 3).unreadCount = 3 ∧
    fetchUnreadCountLate true notifTeardownState 3 ≠ notifTeardownState :=
  ⟨rfl, by decide⟩

/-- Under the lifecycle invariant, the pending cleanup clears every
scheduled interval. -/
theorem pollerInv_clear (s : PollerState) (hs : PollerInv s) :
    clearIntervalStep s.timers s.cleanupTimer = [] := by
  obtain ⟨ht, hf⟩ := hs
  cases hauth : s.auth
  · obtain ⟨h1, h2⟩ := hf hauth
    rw [h1, h2]
    rfl
  · obtain ⟨i, h1, h2⟩ := ht hauth
    rw [h1, h2]
    simp [clearIntervalStep]

/-- An effect run starting from cleared timers re-establishes the
lifecycle invariant. -/
theorem pollerInv_runEffect (s : PollerState)
    (h : clearIntervalStep s.timers s.cleanupTimer = []) :
    PollerInv (runPollingEffect s) := by
  unfold runPollingEffect PollerInv
  cases hauth : s.auth <;> simp [hauth, h]

/-- The invariant holds right after mounting the provider. -/
theorem pollerInv_mount (a : Bool) : PollerInv (mountPoller a) := by
  apply pollerInv_runEffect
  rfl

/-- The invariant is preserved by every authentication flip. -/
theorem pollerInv_step (s : PollerState) (b : Bool) (hs : PollerInv s) :
    PollerInv (setAuth s b) := by
  apply pollerInv_runEffect
  exact pollerInv_clear s hs

/-- The invariant holds in every reachable poller state. -/
theorem pollerInv_run (a : Bool) (evs : List Bool) : PollerInv (runPoller a evs) := by
  have key : ∀ (l : List Bool) (s : PollerState),
      PollerInv s → PollerInv (l.foldl setAuth s) := by
    intro l
    induction l with
    | nil => exact fun s hs => hs
    | cons b rest ih => exact fun s hs => ih _ (pollerInv_step s b hs)
  exact key evs _ (pollerInv_mount a)

/-- C6: in every reachable state of the polling lifecycle, exactly one
interval is active while authenticated, none while unauthenticated, never
more than one in any state, and unmounting the provider leaves none. -/
theorem c6_poller_lifecycle (a : Bool) (evs : List Bool) :
    ((runPoller a evs).auth = true → (runPoller a evs).timers.length = 1) ∧
    ((runPoller a evs).auth = false → (runPoller a evs).timers.length = 0) ∧
    (runPoller a evs).timers.length ≤ 1 ∧
    (unmountPoller (runPoller a evs)).timers.length = 0 := by
  have hs := pollerInv_run a evs
  obtain ⟨ht, hf⟩ := hs
  refine ⟨?_, ?_, ?_, ?_⟩
  · intro h
    obtain ⟨i, h1, _⟩ := ht h
    rw [h1]
    rfl
  · intro h
    rw [(hf h).1]
    rfl
  · cases hauth : (runPoller a evs).auth
    · rw [(hf hauth).1]
      simp
    · obtain ⟨i, h1, _⟩ := ht hauth
      rw [h1]
      simp
  · unfold unmountPoller
    simp [pollerInv_clear _ ⟨ht, hf⟩]

/-- Witness for c6_poller_lifecycle: mounting logged out, then logging in,
leaves exactly one interval; logging out again leaves none. -/
theorem c6_poller_lifecycle_witness :
    (runPoller false [true]).timers.length = 1 ∧
    (runPoller false [true, false]).timers.length = 0 :=
  ⟨(c6_poller_lifecycle false [true]).1 (by decide),
   (c6_poller_lifecycle false [true, false]).2.1 (by decide)⟩

/-- At the view-entry sub-state (no response form open, no response in
flight), an action has an enabled control exactly when the offer is
pending and the action matches the viewer role per the table. -/
theorem enabledActions_default_mem (st : OfferStatus) (ib isl : Bool) (a : OfferAction) :
    a ∈ enabledActions st ib isl none false ↔
      (st = OfferStatus.pending ∧
        ((isl = true ∧ (a = OfferAction.accept ∨ a = OfferAction.decline)) ∨
         (ib = true ∧ a = OfferAction.cancel))) := by
  cases st <;> cases ib <;> cases isl <;> cases a <;> decide

/-- In any terminal status the actions section does not render, whatever
the roles and the modal sub-state. -/
theorem enabledActions_terminal (st : OfferStatus) (ib isl : Bool)
    (sf : Option ResponseForm) (r : Bool) (h : st ≠ OfferStatus.pending) :
    enabledActions st ib isl sf r = [] := by
  cases st
  · exact absurd rfl h
  · rfl
  · rfl
  · rfl

/-- C1: for every viewer and rendered offer, at view entry a transition
action is enabled exactly when the offer is pending and the action is
role-appropriate: accept and decline for the seller, cancel for the
buyer, nothing for a viewer who is neither; and in any terminal status no
transition action is enabled for any viewer in any sub-state. -/
theorem c1_offer_actions (viewer : Option Nat) (o : OfferView) (a : OfferAction) :
    (a ∈ enabledActions o.status (isRoleOf viewer o.buyerId) (isRoleOf viewer o.sellerId)
        none false ↔
      (o.status = OfferStatus.pending ∧
        ((isRoleOf viewer o.sellerId = true ∧
            (a = OfferAction.accept ∨ a = OfferAction.decline)) ∨
         (isRoleOf viewer o.buyerId = true ∧ a = OfferAction.cancel)))) ∧
    (o.status ≠ OfferStatus.pending →
      ∀ (sf : Option ResponseForm) (r : Bool),
        enabledActions o.status (isRoleOf viewer o.buyerId) (isRoleOf viewer o.sellerId)
          sf r = []) :=
  ⟨enabledActions_default_mem o.status _ _ a,
   fun h sf r => enabledActions_terminal o.status _ _ sf r h⟩

/-- Witness for c1_offer_actions: a buyer viewing their accepted offer has
no enabled transition action. -/
theorem c1_offer_actions_witness :
    enabledActions OfferStatus.accepted (isRoleOf (some 1) 1) (isRoleOf (some 1) 2)
      none false = [] :=
  (c1_offer_actions (some 1) ⟨1, 2, OfferStatus.accepted⟩ OfferAction.cancel).2
    (by decide) none false

/-- C2 counterexample: when an unauthenticated response arrives while the
location already is the login entry point, the interceptor leaves the
in-memory session user in place, unlike the logout teardown, which clears
it: the claimed identity with the logout teardown fails at this state. -/
theorem c2_counterexample :
    (handle401 ⟨some 1, some 7, some 7, Loc.login⟩).sessionUser = some 7 ∧
    (logoutTeardown ⟨some 1, some 7, some 7, Loc.login⟩).sessionUser = none ∧
    handle401 ⟨some 1, some 7, some 7, Loc.login⟩ ≠
      logoutTeardown ⟨some 1, some 7, some 7, Loc.login⟩ :=
  ⟨rfl, rfl, by decide⟩

/-- C2 amended: every 401 clears the stored credential and the cached user
exactly once per occurrence; when the location is not the login entry
point the interceptor navigates there, and the resulting fresh page has a
null session user, so the full logout teardown is achieved; when the
location already is the login entry point no redirect occurs, so there is
no redirect loop, and the in-memory session user is left as it was. -/
theorem c2_gateway_teardown (s : AppState) :
    (handle401 s).storedToken = none ∧
    (handle401 s).storedUser = none ∧
    (s.loc ≠ Loc.login →
      handle401 s = ⟨none, none, none, Loc.login⟩) ∧
    (s.loc = Loc.login →
      (handle401 s).loc = Loc.login ∧ (handle401 s).sessionUser = s.sessionUser) := by
  unfold handle401
  cases hl : s.loc <;> simp [hl]

/-- Witness for c2_gateway_teardown: a 401 away from the login entry point
lands on the fully torn down login page. -/
theorem c2_gateway_teardown_witness :
    handle401 ⟨some 1, some 2, some 2, Loc.other⟩ = ⟨none, none, none, Loc.login⟩ :=
  (c2_gateway_teardown ⟨some 1, some 2, some 2, Loc.other⟩).2.2.1 (by decide)

/-- C7 counterexample: for a nonempty typed message, the synchronous
prefix of the send handler, which is everything that runs before the
network call resolves, leaves the messages list unchanged and empty: no
locally-constructed message is appended optimistically. -/
theorem c7_counterexample :
    jsTrim (SendState.newMessage ⟨[], "hi", false, false⟩) ≠ "" ∧
    (handleSendMessageStart ⟨[], "hi", false, false⟩).messages = [] := by
  constructor
  · decide
  · decide

/-- C7 amended: no message is appended before the network call resolves;
on success the server-returned message, already carrying the
server-assigned identity, is appended at the end of the thread; on
failure the view surfaces the failure through the error toast and appends
nothing. -/
theorem c7_send_reconcile (s : SendState) (m : ThreadMsg) :
    (handleSendMessageStart s).messages = s.messages ∧
    (handleSendMessageSuccess s m).messages = s.messages ++ [m] ∧
    (handleSendMessageFailure s).messages = s.messages ∧
    (handleSendMessageFailure s).errorToast = true := by
  refine ⟨?_, rfl, rfl, rfl⟩
  unfold handleSendMessageStart
  split <;> rfl

/-- C8 counterexample: a view entry in which the offer loads, a message
arrives, and the offer object is then replaced by the server response to
an accept, decline or cancel issues the mark-thread-read call twice, not
once. -/
theorem c8_counterexample :
    (runThread [ThreadEvent.offerSet 1, ThreadEvent.messagesChanged,
        ThreadEvent.offerSet 2]).markReadCalls = 2 ∧ (2 : Nat) ≠ 1 :=
  ⟨rfl, by decide⟩

/-- Under the effect semantics, the markRead count grows by exactly the
number of offer loads, provided every stored offer is a fresh object. -/
theorem threadCalls_aux (evs : List ThreadEvent) :
    ∀ (s : ThreadViewState), s.offer = s.lastOfferDep →
      freshTrace s.offer evs = true →
      (evs.foldl threadStep s).markReadCalls = s.markReadCalls + countOfferLoads evs := by
  induction evs with
  | nil =>
    intro s _ _
    simp [countOfferLoads]
  | cons e rest ih =>
    intro s h hf
    cases e with
    | offerSet r =>
      rw [freshTrace, Bool.and_eq_true] at hf
      have hne : some r ≠ s.offer := of_decide_eq_true hf.1
      have hcond : ¬(some r = s.lastOfferDep) := by
        rw [← h]
        exact hne
      have hstep : threadStep s (ThreadEvent.offerSet r) =
          { offer := some r, lastOfferDep := some r,
            markReadCalls := s.markReadCalls + 1 } := by
        simp [threadStep, runMessagesEffect, hcond]
      rw [List.foldl_cons, hstep, ih _ rfl hf.2, countOfferLoads]
      show s.markReadCalls + 1 + countOfferLoads rest =
        s.markReadCalls + (countOfferLoads rest + 1)
      omega
    | messagesChanged =>
      rw [List.foldl_cons]
      exact ih s h hf

/-- C8 amended: the mark-thread-read call is issued once per offer object
loaded into the view: once when the offer first loads after view entry
and once more each time the offer object is replaced, for example by the
server response to an accept, decline or cancel; messages arriving do not
trigger additional calls. -/
theorem c8_markRead_per_offer_load (evs : List ThreadEvent)
    (hf : freshTrace none evs = true) :
    (runThread evs).markReadCalls = countOfferLoads evs := by
  have h := threadCalls_aux evs threadInit rfl hf
  simpa [runThread, threadInit] using h

/-- Witness for c8_markRead_per_offer_load: one offer load followed by a
message change yields exactly one markRead call. -/
theorem c8_markRead_per_offer_load_witness :
    (runThread [ThreadEvent.offerSet 5, ThreadEvent.messagesChanged]).markReadCalls =
      countOfferLoads [ThreadEvent.offerSet 5, ThreadEvent.messagesChanged] :=
  c8_markRead_per_offer_load
    [ThreadEvent.offerSet 5, ThreadEvent.messagesChanged] (by decide)

/-- C9: after a successful login followed by logout, whatever the outcome
of the best-effort server logout call, the in-memory user is null and no
credential or cached user remains in storage; and logout behaves
identically whether the server call succeeds or fails. -/
theorem c9_login_logout (s : SessionStore) (t u : Nat) (ok : Bool) :
    (logoutRun (loginSuccess s t u) ok).user = none ∧
    (logoutRun (loginSuccess s t u) ok).storedToken = none ∧
    (logoutRun (loginSuccess s t u) ok).storedUser = none ∧
    logoutRun s false = logoutRun s true :=
  ⟨rfl, rfl, rfl, rfl⟩
